import Mathlib

/-!
Verification of the socket-option constant table defined by
`src/platform/sysroot/usr/include/mipsel-linux-android/asm/socket.h`
(lines 22-91).

The header consists of 70 `#define` lines.  Each line either binds a name
to an integer literal, or binds a name to a previously defined name (an
alias, e.g. `#define SO_STYLE SO_TYPE`).  We embed the header as an
ordered list of macro definitions and resolve aliases the way the C
preprocessor does: an alias expands to the value of the name it refers
to, which at that point in the file is already bound to a literal.
-/

/-- The right-hand side of a `#define` line in the header: either an
integer literal, or a reference to another macro name (an alias). -/
inductive MacroRhs where
  | lit : Nat → MacroRhs
  | ref : String → MacroRhs
deriving DecidableEq, Repr

/-- The 70 `#define` lines of `asm/socket.h`, lines 22-91, in source
order.  Literals are transcribed exactly (hex where the source uses
hex); alias lines are kept as references, not pre-resolved. -/
def socketDefs : List (String × MacroRhs) :=
  [ ("SOL_SOCKET", MacroRhs.lit 0xffff)
  , ("SO_DEBUG", MacroRhs.lit 0x0001)
  , ("SO_REUSEADDR", MacroRhs.lit 0x0004)
  , ("SO_KEEPALIVE", MacroRhs.lit 0x0008)
  , ("SO_DONTROUTE", MacroRhs.lit 0x0010)
  , ("SO_BROADCAST", MacroRhs.lit 0x0020)
  , ("SO_LINGER", MacroRhs.lit 0x0080)
  , ("SO_OOBINLINE", MacroRhs.lit 0x0100)
  , ("SO_REUSEPORT", MacroRhs.lit 0x0200)
  , ("SO_TYPE", MacroRhs.lit 0x1008)
  , ("SO_STYLE", MacroRhs.ref "SO_TYPE")
  , ("SO_ERROR", MacroRhs.lit 0x1007)
  , ("SO_SNDBUF", MacroRhs.lit 0x1001)
  , ("SO_RCVBUF", MacroRhs.lit 0x1002)
  , ("SO_SNDLOWAT", MacroRhs.lit 0x1003)
  , ("SO_RCVLOWAT", MacroRhs.lit 0x1004)
  , ("SO_SNDTIMEO", MacroRhs.lit 0x1005)
  , ("SO_RCVTIMEO", MacroRhs.lit 0x1006)
  , ("SO_ACCEPTCONN", MacroRhs.lit 0x1009)
  , ("SO_PROTOCOL", MacroRhs.lit 0x1028)
  , ("SO_DOMAIN", MacroRhs.lit 0x1029)
  , ("SO_NO_CHECK", MacroRhs.lit 11)
  , ("SO_PRIORITY", MacroRhs.lit 12)
  , ("SO_BSDCOMPAT", MacroRhs.lit 14)
  , ("SO_PASSCRED", MacroRhs.lit 17)
  , ("SO_PEERCRED", MacroRhs.lit 18)
  , ("SO_SECURITY_AUTHENTICATION", MacroRhs.lit 22)
  , ("SO_SECURITY_ENCRYPTION_TRANSPORT", MacroRhs.lit 23)
  , ("SO_SECURITY_ENCRYPTION_NETWORK", MacroRhs.lit 24)
  , ("SO_BINDTODEVICE", MacroRhs.lit 25)
  , ("SO_ATTACH_FILTER", MacroRhs.lit 26)
  , ("SO_DETACH_FILTER", MacroRhs.lit 27)
  , ("SO_GET_FILTER", MacroRhs.ref "SO_ATTACH_FILTER")
  , ("SO_PEERNAME", MacroRhs.lit 28)
  , ("SO_TIMESTAMP", MacroRhs.lit 29)
  , ("SCM_TIMESTAMP", MacroRhs.ref "SO_TIMESTAMP")
  , ("SO_PEERSEC", MacroRhs.lit 30)
  , ("SO_SNDBUFFORCE", MacroRhs.lit 31)
  , ("SO_RCVBUFFORCE", MacroRhs.lit 33)
  , ("SO_PASSSEC", MacroRhs.lit 34)
  , ("SO_TIMESTAMPNS", MacroRhs.lit 35)
  , ("SCM_TIMESTAMPNS", MacroRhs.ref "SO_TIMESTAMPNS")
  , ("SO_MARK", MacroRhs.lit 36)
  , ("SO_TIMESTAMPING", MacroRhs.lit 37)
  , ("SCM_TIMESTAMPING", MacroRhs.ref "SO_TIMESTAMPING")
  , ("SO_RXQ_OVFL", MacroRhs.lit 40)
  , ("SO_WIFI_STATUS", MacroRhs.lit 41)
  , ("SCM_WIFI_STATUS", MacroRhs.ref "SO_WIFI_STATUS")
  , ("SO_PEEK_OFF", MacroRhs.lit 42)
  , ("SO_NOFCS", MacroRhs.lit 43)
  , ("SO_LOCK_FILTER", MacroRhs.lit 44)
  , ("SO_SELECT_ERR_QUEUE", MacroRhs.lit 45)
  , ("SO_BUSY_POLL", MacroRhs.lit 46)
  , ("SO_MAX_PACING_RATE", MacroRhs.lit 47)
  , ("SO_BPF_EXTENSIONS", MacroRhs.lit 48)
  , ("SO_INCOMING_CPU", MacroRhs.lit 49)
  , ("SO_ATTACH_BPF", MacroRhs.lit 50)
  , ("SO_DETACH_BPF", MacroRhs.ref "SO_DETACH_FILTER")
  , ("SO_ATTACH_REUSEPORT_CBPF", MacroRhs.lit 51)
  , ("SO_ATTACH_REUSEPORT_EBPF", MacroRhs.lit 52)
  , ("SO_CNX_ADVICE", MacroRhs.lit 53)
  , ("SCM_TIMESTAMPING_OPT_STATS", MacroRhs.lit 54)
  , ("SO_MEMINFO", MacroRhs.lit 55)
  , ("SO_INCOMING_NAPI_ID", MacroRhs.lit 56)
  , ("SO_COOKIE", MacroRhs.lit 57)
  , ("SCM_TIMESTAMPING_PKTINFO", MacroRhs.lit 58)
  , ("SO_PEERGROUPS", MacroRhs.lit 59)
  , ("SO_ZEROCOPY", MacroRhs.lit 60)
  , ("SO_TXTIME", MacroRhs.lit 61)
  , ("SCM_TXTIME", MacroRhs.ref "SO_TXTIME")
  ]

/-- Resolve the macro definitions in source order, the way the C
preprocessor evaluates a use of each macro: a literal binds its name to
that value; an alias binds its name to the value already bound to the
referenced name.  An alias whose target is not yet defined would not
resolve to an integer and is dropped. -/
def resolveAcc : List (String × Nat) → List (String × MacroRhs) → List (String × Nat)
  | acc, [] => acc
  | acc, (n, .lit v) :: rest => resolveAcc (acc ++ [(n, v)]) rest
  | acc, (n, .ref m) :: rest =>
      match acc.lookup m with
      | some v => resolveAcc (acc ++ [(n, v)]) rest
      | none => resolveAcc acc rest

/-- The fully resolved constant table: every defined name paired with
the integer it expands to. -/
def socketTable : List (String × Nat) := resolveAcc [] socketDefs

/-- Look a name up in the resolved table. -/
def lookupConst (n : String) : Option Nat := socketTable.lookup n

/-- The names defined by the header, in source order. -/
def socketNames : List String := socketDefs.map Prod.fst

/-- The alias pairs (alias, target) appearing in the header. -/
def aliasPairs : List (String × String) :=
  socketDefs.filterMap fun p =>
    match p.2 with
    | .lit _ => none
    | .ref m => some (p.1, m)

/-- Names defined directly by an integer literal (canonical names). -/
def literalDefs : List (String × Nat) :=
  socketDefs.filterMap fun p =>
    match p.2 with
    | .lit v => some (p.1, v)
    | .ref _ => none

/-- Names defined as aliases of another name. -/
def aliasNames : List String := aliasPairs.map Prod.fst

/-- The expected fully resolved table, written out by hand from the
source: each of the 70 macro names of lines 22-91 paired with the
literal integer that name resolves to (aliases resolved through their
target's literal).  This is the spec-side table that the resolution of
`socketDefs` is compared against. -/
def specResolvedTable : List (String × Nat) :=
  [ ("SOL_SOCKET", 65535)
  , ("SO_DEBUG", 1)
  , ("SO_REUSEADDR", 4)
  , ("SO_KEEPALIVE", 8)
  , ("SO_DONTROUTE", 16)
  , ("SO_BROADCAST", 32)
  , ("SO_LINGER", 128)
  , ("SO_OOBINLINE", 256)
  , ("SO_REUSEPORT", 512)
  , ("SO_TYPE", 4104)
  , ("SO_STYLE", 4104)
  , ("SO_ERROR", 4103)
  , ("SO_SNDBUF", 4097)
  , ("SO_RCVBUF", 4098)
  , ("SO_SNDLOWAT", 4099)
  , ("SO_RCVLOWAT", 4100)
  , ("SO_SNDTIMEO", 4101)
  , ("SO_RCVTIMEO", 4102)
  , ("SO_ACCEPTCONN", 4105)
  , ("SO_PROTOCOL", 4136)
  , ("SO_DOMAIN", 4137)
  , ("SO_NO_CHECK", 11)
  , ("SO_PRIORITY", 12)
  , ("SO_BSDCOMPAT", 14)
  , ("SO_PASSCRED", 17)
  , ("SO_PEERCRED", 18)
  , ("SO_SECURITY_AUTHENTICATION", 22)
  , ("SO_SECURITY_ENCRYPTION_TRANSPORT", 23)
  , ("SO_SECURITY_ENCRYPTION_NETWORK", 24)
  , ("SO_BINDTODEVICE", 25)
  , ("SO_ATTACH_FILTER", 26)
  , ("SO_DETACH_FILTER", 27)
  , ("SO_GET_FILTER", 26)
  , ("SO_PEERNAME", 28)
  , ("SO_TIMESTAMP", 29)
  , ("SCM_TIMESTAMP", 29)
  , ("SO_PEERSEC", 30)
  , ("SO_SNDBUFFORCE", 31)
  , ("SO_RCVBUFFORCE", 33)
  , ("SO_PASSSEC", 34)
  , ("SO_TIMESTAMPNS", 35)
  , ("SCM_TIMESTAMPNS", 35)
  , ("SO_MARK", 36)
  , ("SO_TIMESTAMPING", 37)
  , ("SCM_TIMESTAMPING", 37)
  , ("SO_RXQ_OVFL", 40)
  , ("SO_WIFI_STATUS", 41)
  , ("SCM_WIFI_STATUS", 41)
  , ("SO_PEEK_OFF", 42)
  , ("SO_NOFCS", 43)
  , ("SO_LOCK_FILTER", 44)
  , ("SO_SELECT_ERR_QUEUE", 45)
  , ("SO_BUSY_POLL", 46)
  , ("SO_MAX_PACING_RATE", 47)
  , ("SO_BPF_EXTENSIONS", 48)
  , ("SO_INCOMING_CPU", 49)
  , ("SO_ATTACH_BPF", 50)
  , ("SO_DETACH_BPF", 27)
  , ("SO_ATTACH_REUSEPORT_CBPF", 51)
  , ("SO_ATTACH_REUSEPORT_EBPF", 52)
  , ("SO_CNX_ADVICE", 53)
  , ("SCM_TIMESTAMPING_OPT_STATS", 54)
  , ("SO_MEMINFO", 55)
  , ("SO_INCOMING_NAPI_ID", 56)
  , ("SO_COOKIE", 57)
  , ("SCM_TIMESTAMPING_PKTINFO", 58)
  , ("SO_PEERGROUPS", 59)
  , ("SO_ZEROCOPY", 60)
  , ("SO_TXTIME", 61)
  , ("SCM_TXTIME", 61)
  ]

/-- C1: the resolved table defines exactly the 70 macro names of
lines 22-91 of `asm/socket.h`, in source order, with no omissions and no
extras, and the value of every name equals the literal integer it
resolves to in the source. -/
theorem socketTable_eq_spec : socketTable = specResolvedTable := by decide

/-- C2: the alias pairs of the table are exactly the eight listed in
the claim, and for each pair (A aliases B) the value of A equals the
value of B, each resolving to the literal integer that B is directly
defined by in the source. -/
theorem alias_pairs_resolve :
    aliasPairs =
      [ ("SO_STYLE", "SO_TYPE")
      , ("SO_GET_FILTER", "SO_ATTACH_FILTER")
      , ("SCM_TIMESTAMP", "SO_TIMESTAMP")
      , ("SCM_TIMESTAMPNS", "SO_TIMESTAMPNS")
      , ("SCM_TIMESTAMPING", "SO_TIMESTAMPING")
      , ("SCM_WIFI_STATUS", "SO_WIFI_STATUS")
      , ("SO_DETACH_BPF", "SO_DETACH_FILTER")
      , ("SCM_TXTIME", "SO_TXTIME")
      ] ∧
    ∀ p ∈ aliasPairs,
      lookupConst p.1 = lookupConst p.2 ∧
      lookupConst p.1 = literalDefs.lookup p.2 := by
  constructor
  · decide
  · decide

/-- Closed witness for C2, instantiating the alias property at the
pair (SO_STYLE, SO_TYPE). -/
theorem alias_pairs_resolve_witness :
    lookupConst "SO_STYLE" = lookupConst "SO_TYPE" ∧
    lookupConst "SO_STYLE" = literalDefs.lookup "SO_TYPE" :=
  alias_pairs_resolve.2 ("SO_STYLE", "SO_TYPE") (by decide)

/-- C3: looking up any defined name cannot fail — for every name in the
defined set the lookup returns `some` of a value (the `none` branch is
unreachable on that set) — and the value returned for a given name is
the same on every lookup. -/
theorem lookup_total_and_deterministic :
    (∀ n ∈ socketNames, (lookupConst n).isSome = true) ∧
    (∀ (n : String) (v₁ v₂ : Nat),
      lookupConst n = some v₁ → lookupConst n = some v₂ → v₁ = v₂) := by
  constructor
  · decide
  · intro n v₁ v₂ h₁ h₂
    rw [h₁] at h₂
    exact Option.some.inj h₂

/-- Closed witness for C3, instantiating totality and determinism at
the name SOL_SOCKET. -/
theorem lookup_total_and_deterministic_witness :
    (lookupConst "SOL_SOCKET").isSome = true ∧ (65535 : Nat) = 65535 :=
  ⟨lookup_total_and_deterministic.1 "SOL_SOCKET" (by decide),
   lookup_total_and_deterministic.2 "SOL_SOCKET" 65535 65535 (by decide) (by decide)⟩

/-- C4: the value of SOL_SOCKET is exactly 0xffff, i.e. 65535. -/
theorem sol_socket_value : lookupConst "SOL_SOCKET" = some 0xffff := by decide

/-- C5: SO_STYLE and SO_TYPE have equal values, both 0x1008 = 4104. -/
theorem so_style_eq_so_type :
    lookupConst "SO_STYLE" = some 0x1008 ∧
    lookupConst "SO_TYPE" = some 0x1008 := by decide

/-- C6: SO_DETACH_BPF and SO_DETACH_FILTER have equal values, both 27. -/
theorem so_detach_bpf_eq_so_detach_filter :
    lookupConst "SO_DETACH_BPF" = some 27 ∧
    lookupConst "SO_DETACH_FILTER" = some 27 := by decide

/-- C7: SCM_TIMESTAMPING and SO_TIMESTAMPING have equal values, both 37. -/
theorem scm_timestamping_eq_so_timestamping :
    lookupConst "SCM_TIMESTAMPING" = some 37 ∧
    lookupConst "SO_TIMESTAMPING" = some 37 := by decide

/-- C8: the value of SO_REUSEADDR is exactly 0x0004 = 4, and every name
in the table is unique (no name is defined twice). -/
theorem so_reuseaddr_and_names_unique :
    lookupConst "SO_REUSEADDR" = some 0x0004 ∧ socketNames.Nodup := by
  constructor
  · decide
  · decide

set_option maxRecDepth 16000 in
/-- C9: the table is injective on canonical names — any two distinct
names defined by an integer literal rather than as an alias have
different values — and any two distinct names sharing a value involve
one of the 8 alias names. -/
theorem canonical_names_injective :
    (literalDefs.map Prod.snd).Nodup ∧
    (∀ p ∈ socketTable, ∀ q ∈ socketTable,
      p.1 ≠ q.1 → p.2 = q.2 → p.1 ∈ aliasNames ∨ q.1 ∈ aliasNames) := by
  constructor
  · decide
  · decide

/-- Closed witness for C9, instantiating the sharing property at the
equal-valued pair SO_STYLE / SO_TYPE. -/
theorem canonical_names_injective_witness :
    "SO_STYLE" ∈ aliasNames ∨ "SO_TYPE" ∈ aliasNames :=
  canonical_names_injective.2 ("SO_STYLE", 4104) (by decide)
    ("SO_TYPE", 4104) (by decide) (by decide) (by decide)

/-- C10: every value in the table fits in an unsigned 16-bit integer
(is at most 0xffff = 65535), the value of SOL_SOCKET is 0xffff, and
every other name's value is strictly below it, so SOL_SOCKET is the
unique maximum. -/
theorem values_fit_sixteen_bits :
    (∀ p ∈ socketTable, p.2 ≤ 0xffff) ∧
    lookupConst "SOL_SOCKET" = some 0xffff ∧
    (∀ p ∈ socketTable, p.1 ≠ "SOL_SOCKET" → p.2 < 0xffff) := by
  refine ⟨?_, ?_, ?_⟩
  · decide
  · decide
  · decide

/-- Closed witness for C10, instantiating the bounds at the entry for
SO_REUSEADDR. -/
theorem values_fit_sixteen_bits_witness :
    (4 : Nat) ≤ 0xffff ∧ (4 : Nat) < 0xffff :=
  ⟨values_fit_sixteen_bits.1 ("SO_REUSEADDR", 4) (by decide),
   values_fit_sixteen_bits.2.2 ("SO_REUSEADDR", 4) (by decide) (by decide)⟩
